import Mathlib

/-!
# Verification of the Euler-angle component (`euler.go`)

Shallow embedding of `src/euler.go` (package `mathlib`, Go).  Go `float64`
scalars are modelled as real numbers, Go `int` as `ℤ`; `math.Asin` is
`Real.arcsin` and `math.Atan2` is modelled via `Complex.arg`.

The Go `Euler` struct carries an `OnChangeCallback func(*Euler)` field.  A
function whose argument type mentions the structure itself cannot be a field
of that structure in Lean, so the embedding splits the container into its
four data fields (`EulerData`) and the callback, modelled as an
`Option (EulerData → EulerData)`: `none` is Go's `nil` function pointer
(calling it would panic, hence mutators return `Option _`), and `some f`
is a callback that observes, and may mutate, the container's data fields.
Each mutator also returns the list of container states at which the
callback was invoked, so "the observer fired exactly once, seeing state d"
is the trace `[d]`.

Collaborators of `euler.go` that live elsewhere in the repository
(`Clamp`, `Matrix4`, `Quaternion`, the quaternion-to-matrix constructor)
are modelled from the spec, as flagged on each definition.

Everything lives in the namespace `mathlib`, the Go package's name (this
also keeps the `Quaternion` model apart from Mathlib's quaternions).
-/

namespace mathlib

/-- Modelled from the spec (§4.4), the repository's `Clamp` helper not being
part of the extracted source: `clamp(v, lo, hi)` returns `v` if
`lo <= v <= hi`, else the nearest bound. -/
noncomputable def Clamp (v lo hi : ℝ) : ℝ :=
  if v < lo then lo else if hi < v then hi else v

/-- Go's `int(x)` conversion from `float64`, which truncates toward zero. -/
noncomputable def goTrunc (r : ℝ) : ℤ :=
  if 0 ≤ r then ⌊r⌋ else ⌈r⌉

/-- Go's `math.Atan2(y, x)`: the two-argument arctangent, the angle of the
point `(x, y)`, with range `(-π, π]`. -/
noncomputable def Atan2 (y x : ℝ) : ℝ :=
  Complex.arg ⟨x, y⟩

-- The euler-order enumeration (`const` block, `euler.go` lines 6-14).
def EulerOrderXYZ : ℤ := 0
def EulerOrderYXZ : ℤ := 1
def EulerOrderZXY : ℤ := 2
def EulerOrderZYX : ℤ := 3
def EulerOrderYZX : ℤ := 4
def EulerOrderXZY : ℤ := 5
def numEulerOrders : ℤ := 6

/-- The default euler order (`euler.go` lines 17-19). -/
def EulerOrderDefault : ℤ := EulerOrderXYZ

/-- The four data fields of the Go `Euler` struct (without the callback;
see the module docstring). -/
structure EulerData where
  X : ℝ
  Y : ℝ
  Z : ℝ
  Order : ℤ

/-- `eulerNoop` (`euler.go` line 21): the default callback, which does
nothing, so as a state transformer it is the identity. -/
def eulerNoop : EulerData → EulerData := fun e => e

/-- The Go `Euler` struct: the four data fields plus the
`OnChangeCallback` field, `none` modelling a `nil` function value. -/
structure Euler where
  data : EulerData
  OnChangeCallback : Option (EulerData → EulerData)

/-- `NewEuler` (`euler.go` lines 27-35): builds the struct literal with the
given fields and the no-op callback.  Note: the `order` argument is stored
as given, without clamping. -/
def NewEuler (x y z : ℝ) (order : ℤ) : Euler :=
  { data := { X := x, Y := y, Z := z, Order := order }
    OnChangeCallback := some eulerNoop }

/-- `XY` (`euler.go` lines 45-47): returns the x and y components. -/
def Euler.XY (e : Euler) : ℝ × ℝ :=
  (e.data.X, e.data.Y)

/-- `XYZ` (`euler.go` lines 50-52): returns the x, y and z components. -/
def Euler.XYZ (e : Euler) : ℝ × ℝ × ℝ :=
  (e.data.X, e.data.Y, e.data.Z)

/-- `Set` (`euler.go` lines 75-82): clamps the order into
`[0, numEulerOrders-1]` by the float round-trip
`int(Clamp(float64(order), 0, numEulerOrders-1))`, assigns all four fields,
invokes the callback on the updated container, and returns the container.
Result: `none` when the callback is `nil`; otherwise the final container
paired with the invocation trace (the one state the callback was shown). -/
noncomputable def Euler.Set (e : Euler) (x y z : ℝ) (order : ℤ) :
    Option (Euler × List EulerData) :=
  let order' := goTrunc (Clamp (order : ℝ) 0 ((numEulerOrders : ℝ) - 1))
  let d : EulerData := { X := x, Y := y, Z := z, Order := order' }
  match e.OnChangeCallback with
  | none => none
  | some f => some ({ data := f d, OnChangeCallback := some f }, [d])

/-- `SetX` (`euler.go` lines 55-57). -/
noncomputable def Euler.SetX (e : Euler) (v : ℝ) :
    Option (Euler × List EulerData) :=
  e.Set v e.data.Y e.data.Z e.data.Order

/-- `SetY` (`euler.go` lines 60-62). -/
noncomputable def Euler.SetY (e : Euler) (v : ℝ) :
    Option (Euler × List EulerData) :=
  e.Set e.data.X v e.data.Z e.data.Order

/-- `SetZ` (`euler.go` lines 65-67). -/
noncomputable def Euler.SetZ (e : Euler) (v : ℝ) :
    Option (Euler × List EulerData) :=
  e.Set e.data.X e.data.Y v e.data.Order

/-- `SetOrder` (`euler.go` lines 70-72). -/
noncomputable def Euler.SetOrder (e : Euler) (v : ℤ) :
    Option (Euler × List EulerData) :=
  e.Set e.data.X e.data.Y e.data.Z v

/-- `Copy` (`euler.go` lines 85-87). -/
noncomputable def Euler.Copy (e other : Euler) :
    Option (Euler × List EulerData) :=
  e.Set other.data.X other.data.Y other.data.Z other.data.Order

/-- Modelled from the spec (§6), the repository's `Matrix4` not being part
of the extracted source: a 4x4 matrix value held as a 16-element flat
numeric array (`Values`), with the rotation block at indices
m11=0, m12=4, m13=8, m21=1, m22=5, m23=9, m31=2, m32=6, m33=10. -/
structure Matrix4 where
  Values : Fin 16 → ℝ

/-- Modelled from the spec (§6), the repository's `Quaternion` not being
part of the extracted source: a 4-scalar rotation value. -/
structure Quaternion where
  X : ℝ
  Y : ℝ
  Z : ℝ
  W : ℝ

/-- The body of `SetFromRotationMatrix` up to the final `Set` call
(`euler.go` lines 100-169): the nine rotation entries are read from the
flat array, `x, y, z` start at `0`, and the `switch` on the (container's)
order picks the decomposition formulas, `case EulerOrderXYZ` falling
through to `default`.  Each branch is written as the triple of final
values of `x, y, z`; where the Go code leaves a variable untouched on the
singular side the component is `0`, its initial value. -/
noncomputable def eulerFromRotationMatrix (ord : ℤ) (m4 : Matrix4) : ℝ × ℝ × ℝ :=
  -- m11 = m[0], m12 = m[4], m13 = m[8],
  -- m21 = m[1], m22 = m[5], m23 = m[9],
  -- m31 = m[2], m32 = m[6], m33 = m[10]
  let m := m4.Values
  let epsilon : ℝ := 0.99999
  if ord = EulerOrderYXZ then
    (Real.arcsin (-Clamp (m 9) (-1) 1),
     if |m 9| < epsilon then Atan2 (m 8) (m 10) else Atan2 (-(m 2)) (m 0),
     if |m 9| < epsilon then Atan2 (m 1) (m 5) else 0)
  else if ord = EulerOrderZXY then
    (Real.arcsin (Clamp (m 6) (-1) 1),
     if |m 6| < epsilon then Atan2 (-(m 2)) (m 10) else 0,
     if |m 6| < epsilon then Atan2 (-(m 4)) (m 5) else Atan2 (m 1) (m 0))
  else if ord = EulerOrderZYX then
    (if |m 2| < epsilon then Atan2 (m 6) (m 10) else 0,
     Real.arcsin (-Clamp (m 2) (-1) 1),
     if |m 2| < epsilon then Atan2 (m 1) (m 0) else Atan2 (-(m 4)) (m 5))
  else if ord = EulerOrderYZX then
    (if |m 1| < epsilon then Atan2 (-(m 9)) (m 5) else 0,
     if |m 1| < epsilon then Atan2 (-(m 2)) (m 0) else Atan2 (m 8) (m 10),
     Real.arcsin (Clamp (m 1) (-1) 1))
  else if ord = EulerOrderXZY then
    (if |m 4| < epsilon then Atan2 (m 6) (m 5) else Atan2 (-(m 9)) (m 10),
     if |m 4| < epsilon then Atan2 (m 8) (m 0) else 0,
     Real.arcsin (-Clamp (m 4) (-1) 1))
  else
    -- case EulerOrderXYZ: fallthrough; default:
    (if |m 8| < epsilon then Atan2 (-(m 9)) (m 10) else Atan2 (m 6) (m 5),
     Real.arcsin (Clamp (m 8) (-1) 1),
     if |m 8| < epsilon then Atan2 (-(m 4)) (m 0) else 0)

/-- `SetFromRotationMatrix` (`euler.go` lines 99-172): decomposes the
matrix by the `switch` on `e.Order` (the container's current order field),
then calls `Set(x, y, z, order)` with the caller-supplied `order`. -/
noncomputable def Euler.SetFromRotationMatrix (e : Euler) (m4 : Matrix4) (order : ℤ) :
    Option (Euler × List EulerData) :=
  let xyz := eulerFromRotationMatrix e.data.Order m4
  e.Set xyz.1 xyz.2.1 xyz.2.2 order

/-- `SetFromQuaternion` (`euler.go` lines 90-96), its quaternion-to-matrix
step modelled from the spec (§4.2, §6): building the intermediate 4x4
rotation matrix from the quaternion (`NewMatrix4` + `FromQuaternion`, not
part of the extracted source) is delegated to an external matrix
constructor, here the parameter `fromQuaternion`; the result is passed to
`SetFromRotationMatrix` with the given order. -/
noncomputable def Euler.SetFromQuaternion (fromQuaternion : Quaternion → Matrix4)
    (e : Euler) (q : Quaternion) (order : ℤ) :
    Option (Euler × List EulerData) :=
  e.SetFromRotationMatrix (fromQuaternion q) order

/-- The decomposition table as the spec states it (§4.3): for each order,
the primary angle is the `asin` of the clamped driving entry and the
singular branch is taken exactly when `|entry| >= 0.99999` (epsilon); the
designated secondary angle is forced to `0` there.  Written from the
spec's words, to be compared with `eulerFromRotationMatrix`. -/
noncomputable def eulerDecomposeSpec (ord : ℤ) (m4 : Matrix4) : ℝ × ℝ × ℝ :=
  let m := m4.Values
  let epsilon : ℝ := 0.99999
  if ord = EulerOrderYXZ then
    (Real.arcsin (-Clamp (m 9) (-1) 1),
     if epsilon ≤ |m 9| then Atan2 (-(m 2)) (m 0) else Atan2 (m 8) (m 10),
     if epsilon ≤ |m 9| then 0 else Atan2 (m 1) (m 5))
  else if ord = EulerOrderZXY then
    (Real.arcsin (Clamp (m 6) (-1) 1),
     if epsilon ≤ |m 6| then 0 else Atan2 (-(m 2)) (m 10),
     if epsilon ≤ |m 6| then Atan2 (m 1) (m 0) else Atan2 (-(m 4)) (m 5))
  else if ord = EulerOrderZYX then
    (if epsilon ≤ |m 2| then 0 else Atan2 (m 6) (m 10),
     Real.arcsin (-Clamp (m 2) (-1) 1),
     if epsilon ≤ |m 2| then Atan2 (-(m 4)) (m 5) else Atan2 (m 1) (m 0))
  else if ord = EulerOrderYZX then
    (if epsilon ≤ |m 1| then 0 else Atan2 (-(m 9)) (m 5),
     if epsilon ≤ |m 1| then Atan2 (m 8) (m 10) else Atan2 (-(m 2)) (m 0),
     Real.arcsin (Clamp (m 1) (-1) 1))
  else if ord = EulerOrderXZY then
    (if epsilon ≤ |m 4| then Atan2 (-(m 9)) (m 10) else Atan2 (m 6) (m 5),
     if epsilon ≤ |m 4| then 0 else Atan2 (m 8) (m 0),
     Real.arcsin (-Clamp (m 4) (-1) 1))
  else
    (if epsilon ≤ |m 8| then Atan2 (m 6) (m 5) else Atan2 (-(m 9)) (m 10),
     Real.arcsin (Clamp (m 8) (-1) 1),
     if epsilon ≤ |m 8| then 0 else Atan2 (-(m 4)) (m 0))

/-! ## Helper lemmas -/

/-- `goTrunc` is the identity on (casts of) integers. -/
theorem goTrunc_intCast (k : ℤ) : goTrunc ((k : ℝ)) = k := by
  unfold goTrunc
  by_cases h : (0 : ℝ) ≤ (k : ℝ)
  · rw [if_pos h, Int.floor_intCast]
  · rw [if_neg h, Int.ceil_intCast]

/-- Clamping the cast of an integer to `[0, 5]` is the cast of the integer
clamp `max 0 (min 5 o)`. -/
theorem Clamp_intCast_zero_five (o : ℤ) :
    Clamp (o : ℝ) 0 5 = ((max 0 (min 5 o) : ℤ) : ℝ) := by
  unfold Clamp
  by_cases h0 : (o : ℝ) < 0
  · have ho : o < 0 := by exact_mod_cast h0
    have : max 0 (min 5 o) = 0 := by omega
    rw [if_pos h0, this]
    norm_num
  · have ho : 0 ≤ o := by
      have := not_lt.mp h0
      exact_mod_cast this
    rw [if_neg h0]
    by_cases h5 : (5 : ℝ) < (o : ℝ)
    · have ho5 : 5 < o := by exact_mod_cast h5
      have : max 0 (min 5 o) = 5 := by omega
      rw [if_pos h5, this]
      norm_num
    · have ho5 : o ≤ 5 := by
        have := not_lt.mp h5
        exact_mod_cast this
      have : max 0 (min 5 o) = o := by omega
      rw [if_neg h5, this]

/-- The order computation of `Set` — clamp in floating point, truncate back
to an integer — is exactly the integer clamp to `[0, 5]`. -/
theorem goTrunc_Clamp_order (o : ℤ) :
    goTrunc (Clamp (o : ℝ) 0 ((numEulerOrders : ℝ) - 1)) = max 0 (min 5 o) := by
  have h5 : ((numEulerOrders : ℝ) - 1) = 5 := by norm_num [numEulerOrders]
  rw [h5, Clamp_intCast_zero_five, goTrunc_intCast]

/-- Swapping the branches of an `if` turns a `<` guard into a `≤` guard. -/
theorem if_lt_flip {A : Type} (a b : ℝ) (s t : A) :
    (if a < b then s else t) = if b ≤ a then t else s := by
  rcases lt_or_le a b with h | h
  · rw [if_pos h, if_neg (not_le.mpr h)]
  · rw [if_neg (not_lt.mpr h), if_pos h]

/-- Evaluation of `Set` when the callback is `some f`: the four fields are
assigned (with the order clamped to `[0, 5]`), the callback sees exactly
that state once, and the returned container carries the callback's result
and the unchanged callback. -/
theorem Euler.set_eq_of_callback (e : Euler) (x y z : ℝ) (o : ℤ)
    (f : EulerData → EulerData) (hcb : e.OnChangeCallback = some f) :
    e.Set x y z o =
      some ({ data := f { X := x, Y := y, Z := z, Order := max 0 (min 5 o) },
              OnChangeCallback := some f },
            [{ X := x, Y := y, Z := z, Order := max 0 (min 5 o) }]) := by
  simp only [Euler.Set, hcb, goTrunc_Clamp_order]

/-! ## Claim theorems -/

/-- C5 (counterexample): the claim "`NewEuler` with order argument 99 stores
order 5" is false — the constructor stores the order argument verbatim, so
the stored order is 99, not 5. -/
theorem newEuler_order_99_unclamped :
    (NewEuler 0 0 0 99).data.Order = 99 ∧ (NewEuler 0 0 0 99).data.Order ≠ 5 := by
  exact ⟨rfl, by decide⟩

/-- C5 (amended): `NewEuler` stores its order argument verbatim, with no
clamping — so an order argument of 99 results in a stored order of 99 (it
only becomes clamped when some later mutation goes through `Set`). -/
theorem newEuler_stores_order_verbatim (x y z : ℝ) (o : ℤ) :
    (NewEuler x y z o).data.Order = o :=
  rfl

/-- C6: after `Set(x, y, z, o)` the stored order (the order assigned to the
container and seen by the observer) is `clamp(o, 0, 5)`: values below 0
saturate to 0, values above 5 saturate to 5, no wraparound, and the result
is always one of the six valid values; `SetOrder o` is the same `Set` call
with the scalar fields held at their current values. -/
theorem set_stores_clamped_order (e : Euler) (x y z : ℝ) (o : ℤ)
    (f : EulerData → EulerData) (hcb : e.OnChangeCallback = some f) :
    e.Set x y z o =
      some ({ data := f { X := x, Y := y, Z := z, Order := max 0 (min 5 o) },
              OnChangeCallback := some f },
            [{ X := x, Y := y, Z := z, Order := max 0 (min 5 o) }]) ∧
    e.SetOrder o = e.Set e.data.X e.data.Y e.data.Z o ∧
    (o < 0 → max 0 (min 5 o) = 0) ∧
    (5 < o → max 0 (min 5 o) = 5) ∧
    (0 ≤ o ∧ o ≤ 5 → max 0 (min 5 o) = o) ∧
    0 ≤ max 0 (min 5 o) ∧ max 0 (min 5 o) ≤ 5 := by
  refine ⟨Euler.set_eq_of_callback e x y z o f hcb, rfl, ?_, ?_, ?_, ?_, ?_⟩ <;> omega

/-- C6 (witness): instantiated at a fresh container and order 99. -/
theorem set_stores_clamped_order_check :
    (NewEuler 0 0 0 0).OnChangeCallback = some eulerNoop ∧
    (NewEuler 0 0 0 0).Set 1 2 3 99 =
      some ({ data := eulerNoop { X := 1, Y := 2, Z := 3, Order := max 0 (min 5 99) },
              OnChangeCallback := some eulerNoop },
            [{ X := 1, Y := 2, Z := 3, Order := max 0 (min 5 99) }]) ∧
    max 0 (min 5 (99 : ℤ)) = 5 :=
  ⟨rfl,
   (set_stores_clamped_order (NewEuler 0 0 0 0) 1 2 3 99 eulerNoop rfl).1,
   by decide⟩

/-- C8: each of `SetX`, `SetY`, `SetZ`, `SetOrder` is exactly the canonical
`Set` call with the other three fields held at their current values, and
`Copy` is exactly the `Set` call with the other container's four fields —
no setter bypasses the canonical `Set` path. -/
theorem setters_are_sugar_for_set (e other : Euler) (v : ℝ) (o : ℤ) :
    e.SetX v = e.Set v e.data.Y e.data.Z e.data.Order ∧
    e.SetY v = e.Set e.data.X v e.data.Z e.data.Order ∧
    e.SetZ v = e.Set e.data.X e.data.Y v e.data.Order ∧
    e.SetOrder o = e.Set e.data.X e.data.Y e.data.Z o ∧
    e.Copy other = e.Set other.data.X other.data.Y other.data.Z other.data.Order :=
  ⟨rfl, rfl, rfl, rfl, rfl⟩

/-- C9: `XY` and `XYZ` return exactly the container's current scalar
components.  In this embedding both accessors are pure functions out of the
container — mirroring the Go methods, which only read fields — so they can
neither change a field nor invoke the observer. -/
theorem accessors_read_only (e : Euler) :
    e.XY = (e.data.X, e.data.Y) ∧ e.XYZ = (e.data.X, e.data.Y, e.data.Z) :=
  ⟨rfl, rfl⟩

/-- C10: `NewEuler` installs the no-op callback `eulerNoop` — in particular
a non-`nil` one — so a mutation of a freshly constructed container never
hits the `nil`-callback (panic) case: `Set` succeeds, re-installs the same
non-`nil` callback (so every later mutation succeeds too), and the no-op
callback leaves the assigned state untouched. -/
theorem newEuler_installs_noop_callback (x y z w u t : ℝ) (o p : ℤ) (d : EulerData) :
    (NewEuler x y z o).OnChangeCallback = some eulerNoop ∧
    some eulerNoop ≠ (none : Option (EulerData → EulerData)) ∧
    eulerNoop d = d ∧
    (NewEuler x y z o).Set w u t p =
      some ({ data := { X := w, Y := u, Z := t, Order := max 0 (min 5 p) },
              OnChangeCallback := some eulerNoop },
            [{ X := w, Y := u, Z := t, Order := max 0 (min 5 p) }]) ∧
    ((NewEuler x y z o).Set w u t p).isSome = true := by
  have h := Euler.set_eq_of_callback (NewEuler x y z o) w u t p eulerNoop rfl
  refine ⟨rfl, by simp, rfl, ?_, ?_⟩
  · exact h
  · rw [h]
    rfl

/-- C7: every mutator — `Set` itself and the operations built on it
(`SetX`, `SetY`, `SetZ`, `SetOrder`, `Copy`, `SetFromQuaternion`,
`SetFromRotationMatrix`) — invokes the observer exactly once per call (a
singleton invocation trace), with the observed container already carrying
all four updated fields; there is no dirty check, so this holds for
arbitrary new values, equal to the old ones or not, and `Set` returns the
container (with the callback's result and the unchanged callback). -/
theorem mutators_notify_exactly_once (e other : Euler) (x y z v : ℝ) (o w : ℤ)
    (q : Quaternion) (conv : Quaternion → Matrix4) (m4 : Matrix4)
    (f : EulerData → EulerData) (hcb : e.OnChangeCallback = some f) :
    e.Set x y z o =
      some ({ data := f { X := x, Y := y, Z := z, Order := max 0 (min 5 o) },
              OnChangeCallback := some f },
            [{ X := x, Y := y, Z := z, Order := max 0 (min 5 o) }]) ∧
    e.SetX v =
      some ({ data := f { X := v, Y := e.data.Y, Z := e.data.Z,
                          Order := max 0 (min 5 e.data.Order) },
              OnChangeCallback := some f },
            [{ X := v, Y := e.data.Y, Z := e.data.Z,
               Order := max 0 (min 5 e.data.Order) }]) ∧
    e.SetY v =
      some ({ data := f { X := e.data.X, Y := v, Z := e.data.Z,
                          Order := max 0 (min 5 e.data.Order) },
              OnChangeCallback := some f },
            [{ X := e.data.X, Y := v, Z := e.data.Z,
               Order := max 0 (min 5 e.data.Order) }]) ∧
    e.SetZ v =
      some ({ data := f { X := e.data.X, Y := e.data.Y, Z := v,
                          Order := max 0 (min 5 e.data.Order) },
              OnChangeCallback := some f },
            [{ X := e.data.X, Y := e.data.Y, Z := v,
               Order := max 0 (min 5 e.data.Order) }]) ∧
    e.SetOrder w =
      some ({ data := f { X := e.data.X, Y := e.data.Y, Z := e.data.Z,
                          Order := max 0 (min 5 w) },
              OnChangeCallback := some f },
            [{ X := e.data.X, Y := e.data.Y, Z := e.data.Z,
               Order := max 0 (min 5 w) }]) ∧
    e.Copy other =
      some ({ data := f { X := other.data.X, Y := other.data.Y, Z := other.data.Z,
                          Order := max 0 (min 5 other.data.Order) },
              OnChangeCallback := some f },
            [{ X := other.data.X, Y := other.data.Y, Z := other.data.Z,
               Order := max 0 (min 5 other.data.Order) }]) ∧
    e.SetFromRotationMatrix m4 o =
      some ({ data := f { X := (eulerFromRotationMatrix e.data.Order m4).1,
                          Y := (eulerFromRotationMatrix e.data.Order m4).2.1,
                          Z := (eulerFromRotationMatrix e.data.Order m4).2.2,
                          Order := max 0 (min 5 o) },
              OnChangeCallback := some f },
            [{ X := (eulerFromRotationMatrix e.data.Order m4).1,
               Y := (eulerFromRotationMatrix e.data.Order m4).2.1,
               Z := (eulerFromRotationMatrix e.data.Order m4).2.2,
               Order := max 0 (min 5 o) }]) ∧
    Euler.SetFromQuaternion conv e q o =
      some ({ data := f { X := (eulerFromRotationMatrix e.data.Order (conv q)).1,
                          Y := (eulerFromRotationMatrix e.data.Order (conv q)).2.1,
                          Z := (eulerFromRotationMatrix e.data.Order (conv q)).2.2,
                          Order := max 0 (min 5 o) },
              OnChangeCallback := some f },
            [{ X := (eulerFromRotationMatrix e.data.Order (conv q)).1,
               Y := (eulerFromRotationMatrix e.data.Order (conv q)).2.1,
               Z := (eulerFromRotationMatrix e.data.Order (conv q)).2.2,
               Order := max 0 (min 5 o) }]) := by
  refine ⟨?_, ?_, ?_, ?_, ?_, ?_, ?_, ?_⟩ <;>
    exact Euler.set_eq_of_callback _ _ _ _ _ f hcb

/-- C7 (witness): a fresh container mutated with values equal to the ones it
already holds — the observer still fires, exactly once. -/
theorem mutators_notify_exactly_once_check :
    (NewEuler 1 2 3 0).OnChangeCallback = some eulerNoop ∧
    (NewEuler 1 2 3 0).Set 1 2 3 0 =
      some ({ data := eulerNoop { X := 1, Y := 2, Z := 3, Order := max 0 (min 5 0) },
              OnChangeCallback := some eulerNoop },
            [{ X := 1, Y := 2, Z := 3, Order := max 0 (min 5 0) }]) :=
  ⟨rfl,
   (mutators_notify_exactly_once (NewEuler 1 2 3 0) (NewEuler 4 5 6 1) 1 2 3 7 0 99
     ⟨0, 0, 0, 1⟩ (fun _ => ⟨fun _ => 0⟩) ⟨fun _ => 0⟩ eulerNoop rfl).1⟩

/-- C1: `SetFromRotationMatrix` decomposes the matrix according to the
container's current `Order` field — two containers with the same `Order`
field get the same three angles from the same matrix, whatever order
arguments are passed — while the order each container ends up storing is
the caller-supplied argument after clamping to `[0, 5]`, not the previous
order. -/
theorem setFromRotationMatrix_branch_by_container_order (e₁ e₂ : Euler)
    (m4 : Matrix4) (o₁ o₂ : ℤ) (f₁ f₂ : EulerData → EulerData)
    (h₁ : e₁.OnChangeCallback = some f₁) (h₂ : e₂.OnChangeCallback = some f₂)
    (hord : e₁.data.Order = e₂.data.Order) :
    ∃ d₁ d₂ : EulerData, ∃ r₁ r₂ : Euler,
      e₁.SetFromRotationMatrix m4 o₁ = some (r₁, [d₁]) ∧
      e₂.SetFromRotationMatrix m4 o₂ = some (r₂, [d₂]) ∧
      (d₁.X, d₁.Y, d₁.Z) = eulerFromRotationMatrix e₁.data.Order m4 ∧
      d₁.X = d₂.X ∧ d₁.Y = d₂.Y ∧ d₁.Z = d₂.Z ∧
      d₁.Order = max 0 (min 5 o₁) ∧ d₂.Order = max 0 (min 5 o₂) ∧
      r₁.data = f₁ d₁ ∧ r₂.data = f₂ d₂ := by
  refine ⟨{ X := (eulerFromRotationMatrix e₁.data.Order m4).1,
            Y := (eulerFromRotationMatrix e₁.data.Order m4).2.1,
            Z := (eulerFromRotationMatrix e₁.data.Order m4).2.2,
            Order := max 0 (min 5 o₁) },
          { X := (eulerFromRotationMatrix e₂.data.Order m4).1,
            Y := (eulerFromRotationMatrix e₂.data.Order m4).2.1,
            Z := (eulerFromRotationMatrix e₂.data.Order m4).2.2,
            Order := max 0 (min 5 o₂) }, _, _,
          Euler.set_eq_of_callback e₁ _ _ _ _ f₁ h₁,
          Euler.set_eq_of_callback e₂ _ _ _ _ f₂ h₂,
          rfl, by rw [hord], by rw [hord], by rw [hord], rfl, rfl, rfl, rfl⟩

/-- C1 (witness): two containers with order field `YXZ` but different order
arguments, on a concrete matrix. -/
theorem setFromRotationMatrix_branch_by_container_order_check :
    (NewEuler 0 0 0 1).OnChangeCallback = some eulerNoop ∧
    (NewEuler 7 8 9 1).OnChangeCallback = some eulerNoop ∧
    (NewEuler 0 0 0 1).data.Order = (NewEuler 7 8 9 1).data.Order ∧
    (∃ d₁ d₂ : EulerData, ∃ r₁ r₂ : Euler,
      (NewEuler 0 0 0 1).SetFromRotationMatrix ⟨fun _ => 0⟩ 0 = some (r₁, [d₁]) ∧
      (NewEuler 7 8 9 1).SetFromRotationMatrix ⟨fun _ => 0⟩ 99 = some (r₂, [d₂]) ∧
      (d₁.X, d₁.Y, d₁.Z) = eulerFromRotationMatrix (NewEuler 0 0 0 1).data.Order ⟨fun _ => 0⟩ ∧
      d₁.X = d₂.X ∧ d₁.Y = d₂.Y ∧ d₁.Z = d₂.Z ∧
      d₁.Order = max 0 (min 5 0) ∧ d₂.Order = max 0 (min 5 99) ∧
      r₁.data = eulerNoop d₁ ∧ r₂.data = eulerNoop d₂) :=
  ⟨rfl, rfl, rfl,
   setFromRotationMatrix_branch_by_container_order (NewEuler 0 0 0 1) (NewEuler 7 8 9 1)
     ⟨fun _ => 0⟩ 0 99 eulerNoop eulerNoop rfl rfl rfl⟩

/-- C2: whenever the container's order field is none of the five
non-default orders — so for `EulerOrderXYZ` itself and for every
unrecognized value, which falls back to the XYZ branch —
`SetFromRotationMatrix` assigns `y = asin(clamp(m13, -1, 1))`; when
`|m13| < 0.99999` it assigns `x = atan2(-m23, m33)` and
`z = atan2(-m12, m11)`, otherwise `x = atan2(m32, m22)` and `z = 0`
(entries `m13 = m[8]`, `m23 = m[9]`, `m33 = m[10]`, `m12 = m[4]`,
`m11 = m[0]`, `m32 = m[6]`, `m22 = m[5]`). -/
theorem setFromRotationMatrix_xyz_branch (e : Euler) (m4 : Matrix4) (o : ℤ)
    (f : EulerData → EulerData) (hcb : e.OnChangeCallback = some f)
    (hord : e.data.Order ≠ EulerOrderYXZ ∧ e.data.Order ≠ EulerOrderZXY ∧
            e.data.Order ≠ EulerOrderZYX ∧ e.data.Order ≠ EulerOrderYZX ∧
            e.data.Order ≠ EulerOrderXZY) :
    ∃ d : EulerData, ∃ r : Euler,
      e.SetFromRotationMatrix m4 o = some (r, [d]) ∧
      d.Y = Real.arcsin (Clamp (m4.Values 8) (-1) 1) ∧
      (|m4.Values 8| < 0.99999 →
        d.X = Atan2 (-(m4.Values 9)) (m4.Values 10) ∧
        d.Z = Atan2 (-(m4.Values 4)) (m4.Values 0)) ∧
      (0.99999 ≤ |m4.Values 8| →
        d.X = Atan2 (m4.Values 6) (m4.Values 5) ∧ d.Z = 0) ∧
      d.Order = max 0 (min 5 o) := by
  obtain ⟨h1, h2, h3, h4, h5⟩ := hord
  have hm : eulerFromRotationMatrix e.data.Order m4 =
      (if |m4.Values 8| < 0.99999 then Atan2 (-(m4.Values 9)) (m4.Values 10)
       else Atan2 (m4.Values 6) (m4.Values 5),
       Real.arcsin (Clamp (m4.Values 8) (-1) 1),
       if |m4.Values 8| < 0.99999 then Atan2 (-(m4.Values 4)) (m4.Values 0)
       else 0) := by
    simp only [eulerFromRotationMatrix, if_neg h1, if_neg h2, if_neg h3,
      if_neg h4, if_neg h5]
  refine ⟨_, _, Euler.set_eq_of_callback e
      (eulerFromRotationMatrix e.data.Order m4).1
      (eulerFromRotationMatrix e.data.Order m4).2.1
      (eulerFromRotationMatrix e.data.Order m4).2.2 o f hcb, ?_, ?_, ?_, rfl⟩
  · rw [hm]
  · intro h
    simp only [hm]
    exact ⟨if_pos h, if_pos h⟩
  · intro h
    simp only [hm]
    exact ⟨if_neg (not_lt.mpr h), if_neg (not_lt.mpr h)⟩

/-- C2 (witness): a container whose order field is 0 (XYZ), decomposing the
zero matrix with order argument 0 — a non-singular instance, `m13 = 0`. -/
theorem setFromRotationMatrix_xyz_branch_check :
    (NewEuler 0 0 0 0).OnChangeCallback = some eulerNoop ∧
    ((NewEuler 0 0 0 0).data.Order ≠ EulerOrderYXZ ∧
     (NewEuler 0 0 0 0).data.Order ≠ EulerOrderZXY ∧
     (NewEuler 0 0 0 0).data.Order ≠ EulerOrderZYX ∧
     (NewEuler 0 0 0 0).data.Order ≠ EulerOrderYZX ∧
     (NewEuler 0 0 0 0).data.Order ≠ EulerOrderXZY) ∧
    (∃ d : EulerData, ∃ r : Euler,
      (NewEuler 0 0 0 0).SetFromRotationMatrix ⟨fun _ => 0⟩ 0 = some (r, [d]) ∧
      d.Y = Real.arcsin (Clamp ((⟨fun _ => 0⟩ : Matrix4).Values 8) (-1) 1) ∧
      (|(⟨fun _ => 0⟩ : Matrix4).Values 8| < 0.99999 →
        d.X = Atan2 (-((⟨fun _ => 0⟩ : Matrix4).Values 9))
                ((⟨fun _ => 0⟩ : Matrix4).Values 10) ∧
        d.Z = Atan2 (-((⟨fun _ => 0⟩ : Matrix4).Values 4))
                ((⟨fun _ => 0⟩ : Matrix4).Values 0)) ∧
      (0.99999 ≤ |(⟨fun _ => 0⟩ : Matrix4).Values 8| →
        d.X = Atan2 ((⟨fun _ => 0⟩ : Matrix4).Values 6)
                ((⟨fun _ => 0⟩ : Matrix4).Values 5) ∧ d.Z = 0) ∧
      d.Order = max 0 (min 5 0)) ∧
    |(⟨fun _ => 0⟩ : Matrix4).Values 8| < 0.99999 :=
  ⟨rfl, by decide,
   setFromRotationMatrix_xyz_branch (NewEuler 0 0 0 0) ⟨fun _ => 0⟩ 0 eulerNoop rfl
     (by decide),
   by norm_num⟩

/-- C4: whenever the container's order field is `EulerOrderYXZ`,
`SetFromRotationMatrix` assigns `x = asin(-clamp(m23, -1, 1))`; when
`|m23| < 0.99999` it assigns `y = atan2(m13, m33)` and
`z = atan2(m21, m22)`, otherwise `y = atan2(-m31, m11)` and `z = 0`
(entries `m23 = m[9]`, `m13 = m[8]`, `m33 = m[10]`, `m21 = m[1]`,
`m22 = m[5]`, `m31 = m[2]`, `m11 = m[0]`). -/
theorem setFromRotationMatrix_yxz_branch (e : Euler) (m4 : Matrix4) (o : ℤ)
    (f : EulerData → EulerData) (hcb : e.OnChangeCallback = some f)
    (hord : e.data.Order = EulerOrderYXZ) :
    ∃ d : EulerData, ∃ r : Euler,
      e.SetFromRotationMatrix m4 o = some (r, [d]) ∧
      d.X = Real.arcsin (-Clamp (m4.Values 9) (-1) 1) ∧
      (|m4.Values 9| < 0.99999 →
        d.Y = Atan2 (m4.Values 8) (m4.Values 10) ∧
        d.Z = Atan2 (m4.Values 1) (m4.Values 5)) ∧
      (0.99999 ≤ |m4.Values 9| →
        d.Y = Atan2 (-(m4.Values 2)) (m4.Values 0) ∧ d.Z = 0) ∧
      d.Order = max 0 (min 5 o) := by
  have hm : eulerFromRotationMatrix e.data.Order m4 =
      (Real.arcsin (-Clamp (m4.Values 9) (-1) 1),
       if |m4.Values 9| < 0.99999 then Atan2 (m4.Values 8) (m4.Values 10)
       else Atan2 (-(m4.Values 2)) (m4.Values 0),
       if |m4.Values 9| < 0.99999 then Atan2 (m4.Values 1) (m4.Values 5)
       else 0) := by
    simp only [eulerFromRotationMatrix, if_pos hord]
  refine ⟨_, _, Euler.set_eq_of_callback e
      (eulerFromRotationMatrix e.data.Order m4).1
      (eulerFromRotationMatrix e.data.Order m4).2.1
      (eulerFromRotationMatrix e.data.Order m4).2.2 o f hcb, ?_, ?_, ?_, rfl⟩
  · rw [hm]
  · intro h
    simp only [hm]
    exact ⟨if_pos h, if_pos h⟩
  · intro h
    simp only [hm]
    exact ⟨if_neg (not_lt.mpr h), if_neg (not_lt.mpr h)⟩

/-- C4 (witness): a container with order field 1 (YXZ), decomposing a
matrix at the singularity (`m23 = 1`, so `|m23| ≥ 0.99999`). -/
theorem setFromRotationMatrix_yxz_branch_check :
    (NewEuler 0 0 0 1).OnChangeCallback = some eulerNoop ∧
    (NewEuler 0 0 0 1).data.Order = EulerOrderYXZ ∧
    (∃ d : EulerData, ∃ r : Euler,
      (NewEuler 0 0 0 1).SetFromRotationMatrix ⟨fun _ => 1⟩ 1 = some (r, [d]) ∧
      d.X = Real.arcsin (-Clamp ((⟨fun _ => 1⟩ : Matrix4).Values 9) (-1) 1) ∧
      (|(⟨fun _ => 1⟩ : Matrix4).Values 9| < 0.99999 →
        d.Y = Atan2 ((⟨fun _ => 1⟩ : Matrix4).Values 8)
                ((⟨fun _ => 1⟩ : Matrix4).Values 10) ∧
        d.Z = Atan2 ((⟨fun _ => 1⟩ : Matrix4).Values 1)
                ((⟨fun _ => 1⟩ : Matrix4).Values 5)) ∧
      (0.99999 ≤ |(⟨fun _ => 1⟩ : Matrix4).Values 9| →
        d.Y = Atan2 (-((⟨fun _ => 1⟩ : Matrix4).Values 2))
                ((⟨fun _ => 1⟩ : Matrix4).Values 0) ∧ d.Z = 0) ∧
      d.Order = max 0 (min 5 1)) ∧
    0.99999 ≤ |(⟨fun _ => 1⟩ : Matrix4).Values 9| :=
  ⟨rfl, rfl,
   setFromRotationMatrix_yxz_branch (NewEuler 0 0 0 1) ⟨fun _ => 1⟩ 1 eulerNoop rfl rfl,
   by norm_num⟩

/-- C3: the decomposition the code performs coincides, for every order
value and every matrix, with the decomposition as the spec's table states
it — for each branch the `asin` argument is clamped to `[-1, 1]`, and the
singular formulas are used exactly when the absolute value of the entry
driving the `asin` is `≥ 0.99999` (the code's `< epsilon` test, branches
flipped). -/
theorem eulerFromRotationMatrix_eq_spec (ord : ℤ) (m4 : Matrix4) :
    eulerFromRotationMatrix ord m4 = eulerDecomposeSpec ord m4 := by
  simp only [eulerFromRotationMatrix, eulerDecomposeSpec, if_lt_flip]

/-- C10 (witness): instantiated at a concrete fresh container and a
concrete mutation. -/
theorem newEuler_installs_noop_callback_check :
    (NewEuler 1 2 3 0).OnChangeCallback = some eulerNoop ∧
    some eulerNoop ≠ (none : Option (EulerData → EulerData)) ∧
    eulerNoop { X := 4, Y := 5, Z := 6, Order := 2 } =
      { X := 4, Y := 5, Z := 6, Order := 2 } ∧
    (NewEuler 1 2 3 0).Set 4 5 6 7 =
      some ({ data := { X := 4, Y := 5, Z := 6, Order := max 0 (min 5 7) },
              OnChangeCallback := some eulerNoop },
            [{ X := 4, Y := 5, Z := 6, Order := max 0 (min 5 7) }]) ∧
    ((NewEuler 1 2 3 0).Set 4 5 6 7).isSome = true :=
  newEuler_installs_noop_callback 1 2 3 4 5 6 0 7 { X := 4, Y := 5, Z := 6, Order := 2 }

end mathlib
